import Mathlib

/-!
Verification of the pooled, reference-counted session lifecycle manager
(juju's `state.StatePool`).

The corpus contains the pool's test suite (`state/pool_test.go`) but not
`state/pool.go` itself, so the pool is modelled from the specification
(sections 3 and 4: data model, `Get`, `Put`, `Remove`, `Close`, forced
worker termination), with the branch the spec leaves open for
`Remove(systemKey)` resolved the way the test suite pins it
(`TestRemoveSystemStateUUID`: nil error, system session left open).

Sessions are opaque handles; we model a session as a `Nat` identity drawn
from a fresh counter (the factory), so that identity sharing and freshness
of re-created sessions are expressible.  Closing a session and killing its
workers are observable effects recorded in the pool state (`closed`,
`killed` lists), since the Session object itself is an external
collaborator whose only pool-relevant behaviour is receiving those calls.
-/

namespace StatePool

/-- Modelled from the spec: the error taxonomy of section 7 — `Put` on an
unknown key, `Put` on a zero refcount, `Get` on a removed key. -/
inductive PoolError where
  | unknownKey (key : String)
  | refcountZero (key : String)
  | removedKey (key : String)
deriving DecidableEq, Repr

/-- Modelled from the spec: a Pool Entry pairs a Session with a reference
count and a removal flag (section 3).  The session field is the opaque
session identity. -/
structure Entry where
  session : Nat
  refCount : Nat
  removed : Bool
deriving DecidableEq, Repr

/-- Lookup in the key → entry association list (first match). -/
def lookupEntry : List (String × Entry) → String → Option Entry
  | [], _ => none
  | (k', e) :: rest, k => if k' = k then some e else lookupEntry rest k

/-- Insert or replace the entry for a key (replaces the first match). -/
def setEntry : List (String × Entry) → String → Entry → List (String × Entry)
  | [], k, e => [(k, e)]
  | (k', e') :: rest, k, e =>
    if k' = k then (k, e) :: rest else (k', e') :: setEntry rest k e

/-- Erase every entry for a key from the mapping. -/
def eraseEntry (m : List (String × Entry)) (k : String) : List (String × Entry) :=
  m.filter (fun kv => kv.1 != k)

/-- Modelled from the spec: the State Pool (section 3) — the key → entry
mapping, the distinguished system Session held outside the mapping, the
session factory (modelled as a fresh-identity counter), and the observable
effects on sessions: which have been closed and which have had their
background workers force-killed. -/
structure Pool where
  systemKey : String
  systemSession : Nat
  entries : List (String × Entry)
  nextSession : Nat
  closed : List Nat
  killed : List Nat
deriving DecidableEq, Repr

/-- Modelled from the spec: pool construction — a system Session and a
factory; the mapping starts empty.  Fresh session identities start above
the system session's identity. -/
def newPool (systemKey : String) (systemSession : Nat) : Pool :=
  { systemKey := systemKey
    systemSession := systemSession
    entries := []
    nextSession := systemSession + 1
    closed := []
    killed := [] }

/-- Modelled from the spec: `Get(key)` (section 4.1).  System key: the
system Session, no refcount effect.  No entry: run the factory, insert a
fresh entry with `refCount = 1`.  Removed entry: fail with the
removed-key condition, no side effect.  Otherwise: increment `refCount`
and return the cached session. -/
def get (p : Pool) (k : String) : Except PoolError Nat × Pool :=
  if k = p.systemKey then (Except.ok p.systemSession, p)
  else
    match lookupEntry p.entries k with
    | none =>
      (Except.ok p.nextSession,
       { p with entries := setEntry p.entries k ⟨p.nextSession, 1, false⟩
                nextSession := p.nextSession + 1 })
    | some e =>
      if e.removed then (Except.error (PoolError.removedKey k), p)
      else
        (Except.ok e.session,
         { p with entries := setEntry p.entries k { e with refCount := e.refCount + 1 } })

/-- Modelled from the spec: `Put(key)` (section 4.2).  System key: no-op
success.  Absent key: unknown-key error.  Zero refcount: refcount-already-
zero error.  Otherwise decrement; when the count reaches 0 with
`removed = true`, close the session and erase the entry, else keep the
entry cached. -/
def put (p : Pool) (k : String) : Except PoolError Unit × Pool :=
  if k = p.systemKey then (Except.ok (), p)
  else
    match lookupEntry p.entries k with
    | none => (Except.error (PoolError.unknownKey k), p)
    | some e =>
      if e.refCount = 0 then (Except.error (PoolError.refcountZero k), p)
      else if e.refCount - 1 = 0 ∧ e.removed then
        (Except.ok (),
         { p with entries := eraseEntry p.entries k
                  closed := e.session :: p.closed })
      else
        (Except.ok (),
         { p with entries := setEntry p.entries k { e with refCount := e.refCount - 1 } })

/-- Modelled from the spec: `Remove(key)` (section 4.3).  System key: the
spec leaves this branch open ("may be a no-op or disallowed"); the test
suite (`TestRemoveSystemStateUUID`) pins it as a nil-error no-op that
leaves the system session open, so the model returns success unchanged.
Absent key: idempotent success.  Zero refcount: close immediately and
erase.  Positive refcount: set `removed` and leave the entry cached. -/
def remove (p : Pool) (k : String) : Except PoolError Unit × Pool :=
  if k = p.systemKey then (Except.ok (), p)
  else
    match lookupEntry p.entries k with
    | none => (Except.ok (), p)
    | some e =>
      if e.refCount = 0 then
        (Except.ok (),
         { p with entries := eraseEntry p.entries k
                  closed := e.session :: p.closed })
      else
        (Except.ok (),
         { p with entries := setEntry p.entries k { e with removed := true } })

/-- Modelled from the spec: `Close()` (section 4.4) — close every entry's
session unconditionally and clear the mapping; the system Session is not
closed. -/
def close (p : Pool) : Pool :=
  { p with entries := []
           closed := p.entries.map (fun kv => kv.2.session) ++ p.closed }

/-- Modelled from the spec: forced worker termination (section 4.5) —
stop the background workers of every pooled session without removing
entries or touching refcounts. -/
def killWorkers (p : Pool) : Pool :=
  { p with killed := p.entries.map (fun kv => kv.2.session) ++ p.killed }

deriving instance DecidableEq for Except

/-- Iterated `Put` on one key, threading the pool state. -/
def putN (p : Pool) (k : String) : Nat → Pool
  | 0 => p
  | n + 1 => (put (putN p k n) k).2

theorem lookupEntry_setEntry_self (m : List (String × Entry)) (k : String) (e : Entry) :
    lookupEntry (setEntry m k e) k = some e := by
  induction m with
  | nil => simp [setEntry, lookupEntry]
  | cons kv rest ih =>
    by_cases h : kv.1 = k
    · simp [setEntry, h, lookupEntry]
    · simp [setEntry, h, lookupEntry, ih]

theorem lookupEntry_eraseEntry_self (m : List (String × Entry)) (k : String) :
    lookupEntry (eraseEntry m k) k = none := by
  induction m with
  | nil => rfl
  | cons kv rest ih =>
    by_cases h : kv.1 = k
    · simpa [eraseEntry, List.filter_cons, h] using ih
    · simpa [eraseEntry, List.filter_cons, h, lookupEntry] using ih

/-- C10: `Remove` applied to the system key returns success (a nil error)
and is a silent no-op: the pool state — entries, refcounts, closed
sessions, and in particular the system Session — is left entirely
unchanged, so the system Session stays open. -/
theorem remove_system_key_noop (p : Pool) :
    remove p p.systemKey = (Except.ok (), p) := by
  simp [remove]

/-- C8 counterexample: the claim says `Remove(systemKey)` is treated as a
caller error, but on a concrete pool it returns success (`Except.ok`),
not an error, exactly as the test `TestRemoveSystemStateUUID` demands. -/
theorem remove_system_key_cex :
    (remove (newPool "sys" 0) "sys").1 = Except.ok () ∧
    (remove (newPool "sys" 0) "sys").2.systemSession ∉
      (remove (newPool "sys" 0) "sys").2.closed := by
  decide

/-- C8 (amended): `Remove(systemKey)` is not a supported removal path, but
it is tolerated rather than rejected: it succeeds with a nil error and has
no effect — the system Session's lifecycle stays external to the pool. -/
theorem remove_system_key_tolerated (p : Pool) :
    (remove p p.systemKey).1 = Except.ok () ∧ (remove p p.systemKey).2 = p := by
  simp [remove]

/-- C9: forced worker termination (`KillWorkers`) stops the background
workers of every currently pooled session — the killed-workers record
gains exactly the sessions of all entries — while the pool bookkeeping is
unchanged: the mapping (hence every entry's `refCount` and `removed`
flag), the closed-session record, and the system Session are untouched. -/
theorem killWorkers_kills_all_frame (p : Pool) :
    (killWorkers p).entries = p.entries ∧
    (killWorkers p).closed = p.closed ∧
    (killWorkers p).systemKey = p.systemKey ∧
    (killWorkers p).systemSession = p.systemSession ∧
    (killWorkers p).killed = p.entries.map (fun kv => kv.2.session) ++ p.killed := by
  simp [killWorkers]

/-- C5: `Get` on a key whose entry is marked removed fails with the
removed-key condition and has no side effect on the pool state. -/
theorem get_removed_rejected (p : Pool) (k : String) (e : Entry)
    (hk : k ≠ p.systemKey) (he : lookupEntry p.entries k = some e)
    (hrem : e.removed = true) :
    get p k = (Except.error (PoolError.removedKey k), p) := by
  simp [get, hk, he, hrem]

/-- C5 witness: on a pool where "m" was fetched once and then removed
while a reference was outstanding, a further `Get "m"` fails with the
removed-key condition and leaves the pool unchanged. -/
theorem get_removed_rejected_witness :
    get (remove (get (newPool "sys" 0) "m").2 "m").2 "m" =
      (Except.error (PoolError.removedKey "m"),
       (remove (get (newPool "sys" 0) "m").2 "m").2) :=
  get_removed_rejected (remove (get (newPool "sys" 0) "m").2 "m").2 "m"
    ⟨1, 1, true⟩ (by decide) (by decide) (by decide)

/-- C6: `Remove` on a non-system key whose entry has `refCount = 0`
closes the session immediately and erases the entry from the mapping. -/
theorem remove_no_refs_closes_immediately (p : Pool) (k : String) (e : Entry)
    (hk : k ≠ p.systemKey) (he : lookupEntry p.entries k = some e)
    (hz : e.refCount = 0) :
    (remove p k).1 = Except.ok () ∧
    lookupEntry (remove p k).2.entries k = none ∧
    e.session ∈ (remove p k).2.closed := by
  simp [remove, hk, he, hz, lookupEntry_eraseEntry_self]

/-- C6 witness: after `Get "m"` then `Put "m"` (refCount back to 0),
`Remove "m"` succeeds, erases the entry, and closes session 1. -/
theorem remove_no_refs_closes_immediately_witness :
    (remove (put (get (newPool "sys" 0) "m").2 "m").2 "m").1 = Except.ok () ∧
    lookupEntry (remove (put (get (newPool "sys" 0) "m").2 "m").2 "m").2.entries "m" = none ∧
    (1 : Nat) ∈ (remove (put (get (newPool "sys" 0) "m").2 "m").2 "m").2.closed :=
  remove_no_refs_closes_immediately (put (get (newPool "sys" 0) "m").2 "m").2 "m"
    ⟨1, 0, false⟩ (by decide) (by decide) (by decide)

/-- C7 counterexample: the claim quantifies over every key with no entry
in the mapping, but the system key never has an entry and `Put` on it
succeeds (`TestPutSystemState`) instead of failing with the unknown-key
condition, so the claim as stated is false at the system key. -/
theorem absent_key_asymmetry_cex :
    lookupEntry (newPool "sys" 0).entries "sys" = none ∧
    (put (newPool "sys" 0) "sys").1 = Except.ok () := by
  decide

/-- C7 (amended): for every non-system key with no entry in the mapping,
`Remove` succeeds without error and without side effect, while `Put`
fails with the unknown-key condition — intentionally asymmetric. -/
theorem absent_key_remove_put_asymmetry (p : Pool) (k : String)
    (hk : k ≠ p.systemKey) (hn : lookupEntry p.entries k = none) :
    remove p k = (Except.ok (), p) ∧
    put p k = (Except.error (PoolError.unknownKey k), p) := by
  simp [remove, put, hk, hn]

/-- C7 witness: on a fresh pool, `Remove "never-seen"` succeeds unchanged
while `Put "never-seen"` fails with the unknown-key condition. -/
theorem absent_key_remove_put_asymmetry_witness :
    remove (newPool "sys" 0) "never-seen" = (Except.ok (), newPool "sys" 0) ∧
    put (newPool "sys" 0) "never-seen" =
      (Except.error (PoolError.unknownKey "never-seen"), newPool "sys" 0) :=
  absent_key_remove_put_asymmetry (newPool "sys" 0) "never-seen"
    (by decide) (by decide)

/-- C2: two `Get` calls for the same key with no intervening `Remove` or
`Close` return the same session instance: whatever session the first
`Get` returns, a second `Get` on the resulting pool returns it again. -/
theorem get_identity_sharing (p : Pool) (k : String) (s : Nat)
    (h : (get p k).1 = Except.ok s) :
    (get (get p k).2 k).1 = Except.ok s := by
  by_cases hk : k = p.systemKey
  · simp [get, hk] at h ⊢
    exact h
  · cases hl : lookupEntry p.entries k with
    | none =>
      simp [get, hk, hl] at h
      simp [get, hk, hl, lookupEntry_setEntry_self, h]
    | some e =>
      by_cases hrem : e.removed = true
      · simp [get, hk, hl, hrem] at h
      · simp [get, hk, hl, hrem] at h
        simp [get, hk, hl, hrem, lookupEntry_setEntry_self, h]

/-- C2 witness: on a fresh pool, `Get "m"` returns session 1, and a
second `Get "m"` returns the same session 1. -/
theorem get_identity_sharing_witness :
    (get (get (newPool "sys" 0) "m").2 "m").1 = Except.ok 1 :=
  get_identity_sharing (newPool "sys" 0) "m" 1 (by decide)

/-- C3: `Put` on a non-system key whose entry has `refCount = 0` fails
with the refcount-already-zero condition and changes nothing (never
silently succeeds); in particular after one `Get` and one `Put` on a
previously unpooled key, the first `Put` succeeds and a second `Put`
fails with that condition. -/
theorem put_refcount_zero_errors (p : Pool) (k : String) (hk : k ≠ p.systemKey) :
    (∀ e, lookupEntry p.entries k = some e → e.refCount = 0 →
      put p k = (Except.error (PoolError.refcountZero k), p)) ∧
    (lookupEntry p.entries k = none →
      (put (get p k).2 k).1 = Except.ok () ∧
      (put (put (get p k).2 k).2 k).1 = Except.error (PoolError.refcountZero k)) := by
  constructor
  · intro e he hz
    simp [put, hk, he, hz]
  · intro hn
    simp [get, put, hk, hn, lookupEntry_setEntry_self]

/-- C3 witness: on a fresh pool, `Get "m"` then `Put "m"` succeeds, and a
second `Put "m"` fails with the refcount-already-zero condition. -/
theorem put_refcount_zero_errors_witness :
    (put (get (newPool "sys" 0) "m").2 "m").1 = Except.ok () ∧
    (put (put (get (newPool "sys" 0) "m").2 "m").2 "m").1 =
      Except.error (PoolError.refcountZero "m") :=
  (put_refcount_zero_errors (newPool "sys" 0) "m" (by decide)).2 (by decide)

/-- C4: `Close` closes every entry's session regardless of refcount or
removal flag and clears the mapping; the system Session is not closed;
and the pool stays usable: a later `Get` on a previously pooled key
succeeds with a fresh session different from the one held before. -/
theorem close_tears_down_all_spares_system (p : Pool) (k : String) (e : Entry)
    (hk : k ≠ p.systemKey) (he : lookupEntry p.entries k = some e)
    (hclosed : p.systemSession ∉ p.closed)
    (hdisj : p.systemSession ∉ p.entries.map (fun kv => kv.2.session))
    (hfresh : e.session < p.nextSession) :
    (close p).closed = p.entries.map (fun kv => kv.2.session) ++ p.closed ∧
    (close p).entries = [] ∧
    p.systemSession ∉ (close p).closed ∧
    (get (close p) k).1 = Except.ok p.nextSession ∧
    p.nextSession ≠ e.session := by
  refine ⟨rfl, rfl, ?_, ?_, ?_⟩
  · simp [close, hclosed, hdisj]
  · simp [get, close, hk, lookupEntry]
  · omega

/-- C4 witness: after pooling "m" (session 1), `Close` empties the
mapping, leaves the system session 0 unclosed, and a new `Get "m"`
succeeds with the fresh session 2 ≠ 1. -/
theorem close_tears_down_witness :
    (close (get (newPool "sys" 0) "m").2).entries = [] ∧
    (0 : Nat) ∉ (close (get (newPool "sys" 0) "m").2).closed ∧
    (get (close (get (newPool "sys" 0) "m").2) "m").1 = Except.ok 2 ∧
    (2 : Nat) ≠ 1 := by
  have h := close_tears_down_all_spares_system (get (newPool "sys" 0) "m").2 "m"
    ⟨1, 1, false⟩ (by decide) (by decide) (by decide) (by decide) (by decide)
  exact ⟨h.2.1, h.2.2.1, h.2.2.2.1, h.2.2.2.2⟩

/-- Draining invariant: on a pool whose entry for `k` is marked removed
with `m + 1` outstanding references, `j ≤ m` successive `Put`s succeed in
leaving the entry cached with `m + 1 - j` references, still removed, the
session not closed, and the system key unchanged. -/
theorem putN_drain (k : String) (s : Nat) :
    ∀ (j : Nat) (m : Nat) (q : Pool), j ≤ m → k ≠ q.systemKey →
      lookupEntry q.entries k = some ⟨s, m + 1, true⟩ → s ∉ q.closed →
      k ≠ (putN q k j).systemKey ∧
      lookupEntry (putN q k j).entries k = some ⟨s, m + 1 - j, true⟩ ∧
      s ∉ (putN q k j).closed := by
  intro j
  induction j with
  | zero =>
    intro m q _ hk hl hc
    exact ⟨hk, by simpa using hl, hc⟩
  | succ j ih =>
    intro m q hj hk hl hc
    obtain ⟨hk', hl', hc'⟩ := ih m q (Nat.le_of_succ_le hj) hk hl hc
    have h1 : m + 1 - j ≠ 0 := by omega
    have h2 : m - j ≠ 0 := by omega
    have h3 : m + 1 - j - 1 = m + 1 - (j + 1) := by omega
    refine ⟨?_, ?_, ?_⟩ <;>
      simp [putN, put, hk', hl', h1, h2, h3, lookupEntry_setEntry_self, hc']

/-- C1: `Remove` on a key with outstanding references does not close the
session: it succeeds, marks the entry removed, and leaves it cached; each
of the first `n` subsequent `Put`s (with `refCount = n + 1` at removal
time) still leaves the entry cached and the session open, and exactly the
`Put` that brings the refcount to 0 closes the session and erases the
entry. -/
theorem remove_with_refs_defers_close (p : Pool) (k : String) (e : Entry) (n : Nat)
    (hk : k ≠ p.systemKey) (he : lookupEntry p.entries k = some e)
    (hr : e.refCount = n + 1) (hc : e.session ∉ p.closed) :
    (remove p k).1 = Except.ok () ∧
    (∀ j, j ≤ n →
      lookupEntry (putN (remove p k).2 k j).entries k = some ⟨e.session, n + 1 - j, true⟩ ∧
      e.session ∉ (putN (remove p k).2 k j).closed) ∧
    (put (putN (remove p k).2 k n) k).1 = Except.ok () ∧
    lookupEntry (put (putN (remove p k).2 k n) k).2.entries k = none ∧
    e.session ∈ (put (putN (remove p k).2 k n) k).2.closed := by
  have hnz : e.refCount ≠ 0 := by omega
  have hrem2 : (remove p k).2 =
      { p with entries := setEntry p.entries k { e with removed := true } } := by
    simp [remove, hk, he, hnz]
  have hq_sys : k ≠ (remove p k).2.systemKey := by rw [hrem2]; exact hk
  have hq_look : lookupEntry (remove p k).2.entries k = some ⟨e.session, n + 1, true⟩ := by
    rw [hrem2]
    have : ({ e with removed := true } : Entry) = ⟨e.session, n + 1, true⟩ := by
      simp [hr]
    simp [lookupEntry_setEntry_self, this]
  have hq_closed : e.session ∉ (remove p k).2.closed := by rw [hrem2]; exact hc
  refine ⟨by simp [remove, hk, he, hnz], ?_, ?_⟩
  · intro j hj
    exact (putN_drain k e.session j n (remove p k).2 hj hq_sys hq_look hq_closed).2
  · obtain ⟨hk', hl', hc'⟩ :=
      putN_drain k e.session n n (remove p k).2 le_rfl hq_sys hq_look hq_closed
    have hone : n + 1 - n = 1 := by omega
    rw [hone] at hl'
    refine ⟨?_, ?_, ?_⟩ <;>
      simp [put, hk', hl', lookupEntry_eraseEntry_self]

/-- C1 witness: pool "m" twice (refCount 2, session 1), `Remove "m"`
succeeds without closing; after one `Put` the entry is still cached with
refCount 1 and session 1 open; the second `Put` succeeds, erases the
entry and closes session 1. -/
theorem remove_with_refs_defers_close_witness :
    (remove (get (get (newPool "sys" 0) "m").2 "m").2 "m").1 = Except.ok () ∧
    lookupEntry (putN (remove (get (get (newPool "sys" 0) "m").2 "m").2 "m").2 "m" 1).entries "m" =
      some ⟨1, 1, true⟩ ∧
    (1 : Nat) ∉ (putN (remove (get (get (newPool "sys" 0) "m").2 "m").2 "m").2 "m" 1).closed ∧
    (put (putN (remove (get (get (newPool "sys" 0) "m").2 "m").2 "m").2 "m" 1) "m").1 =
      Except.ok () ∧
    lookupEntry (put (putN (remove (get (get (newPool "sys" 0) "m").2 "m").2 "m").2 "m" 1) "m").2.entries "m" =
      none ∧
    (1 : Nat) ∈ (put (putN (remove (get (get (newPool "sys" 0) "m").2 "m").2 "m").2 "m" 1) "m").2.closed := by
  have h := remove_with_refs_defers_close (get (get (newPool "sys" 0) "m").2 "m").2 "m"
    ⟨1, 2, false⟩ 1 (by decide) (by decide) (by decide) (by decide)
  exact ⟨h.1, (h.2.1 1 le_rfl).1, (h.2.1 1 le_rfl).2, h.2.2.1, h.2.2.2.1, h.2.2.2.2⟩

end StatePool
